import Mathlib

/-!
Shallow embedding of the file-backed ProgressReport store of
src/models/ProgressReport.js (FeedbackBackend), together with the slice of
its analytics engine that the verified properties talk about.

Modelling conventions:
* JavaScript numbers are modelled as rationals; timestamps (both the
  Date.now() millisecond clock used for ids and the ISO date strings, which
  the code only ever compares through new Date(...)) are modelled as a
  single Nat-valued clock passed explicitly as the parameter now.
* A JavaScript object field that may be absent is an Option; spreading a
  patch object over a record is field-wise Option.getD on presence.
* The falsy-coalescing operator x || d of the source is modelled by the
  jsOr* helpers, which fall back to the default when the field is absent or
  holds the falsy value of its type (0, empty string, false, null).
* The mutable JSON file is the List Report threaded through every
  operation; each operation returns the outcome together with the file
  contents after the operation, so a write is an explicit state change and
  a throw before the write leaves the state untouched.
* Array.prototype.sort with a comparator is modelled by the stable
  List.insertionSort on the corresponding relation.
-/

/-- One entry of a program sources list and similar opaque strings. -/
abbrev JsStr := String

/-- A normalized program record, as built by the per-program defaulting in
createReport (lines 128-143) and addProgram (lines 311-326). -/
structure Program where
  institution : String
  level : String
  programName : String
  totalStudents : ℚ
  maleStudents : ℚ
  femaleStudents : ℚ
  scholarshipStudents : ℚ
  isScholarshipRuleApplied : Bool
  newAdmissions : ℚ
  graduatedStudents : ℚ
  passPercentage : ℚ
  approvalLetterPath : Option String
  approvalLetterFilename : Option String
  cloudinaryPublicId : Option String
deriving DecidableEq, Repr

/-- A raw program payload: every field may be absent. -/
structure ProgramInput where
  institution : Option String := none
  level : Option String := none
  programName : Option String := none
  totalStudents : Option ℚ := none
  maleStudents : Option ℚ := none
  femaleStudents : Option ℚ := none
  scholarshipStudents : Option ℚ := none
  isScholarshipRuleApplied : Option Bool := none
  newAdmissions : Option ℚ := none
  graduatedStudents : Option ℚ := none
  passPercentage : Option ℚ := none
  approvalLetterPath : Option String := none
  approvalLetterFilename : Option String := none
  cloudinaryPublicId : Option String := none
deriving DecidableEq, Repr

/-- JS x || d for a numeric field: absent, or present with the falsy value
0, falls back to the default. -/
def jsOrQ (o : Option ℚ) (d : ℚ) : ℚ :=
  match o with
  | some v => if v = 0 then d else v
  | none => d

/-- JS x || d for a string field: absent or empty falls back. -/
def jsOrStr (o : Option String) (d : String) : String :=
  match o with
  | some v => if v = "" then d else v
  | none => d

/-- JS x || d for a boolean field. -/
def jsOrBool (o : Option Bool) (d : Bool) : Bool :=
  match o with
  | some v => if v then v else d
  | none => d

/-- JS x || null for a nullable string field: absent, null and the empty
string all collapse to null. -/
def jsOrNull (o : Option String) : Option String :=
  match o with
  | some v => if v = "" then none else some v
  | none => none

/-- Program Normalizer: the per-program defaulting map of createReport
(lines 128-143); addProgram builds its new program with the identical
field-by-field defaults (lines 311-326). -/
def normalizeProgram (p : ProgramInput) : Program :=
  { institution := jsOrStr p.institution ""
    level := jsOrStr p.level ""
    programName := jsOrStr p.programName ""
    totalStudents := jsOrQ p.totalStudents 0
    maleStudents := jsOrQ p.maleStudents 0
    femaleStudents := jsOrQ p.femaleStudents 0
    scholarshipStudents := jsOrQ p.scholarshipStudents 0
    isScholarshipRuleApplied := jsOrBool p.isScholarshipRuleApplied false
    newAdmissions := jsOrQ p.newAdmissions 0
    graduatedStudents := jsOrQ p.graduatedStudents 0
    passPercentage := jsOrQ p.passPercentage 0
    approvalLetterPath := jsOrNull p.approvalLetterPath
    approvalLetterFilename := jsOrNull p.approvalLetterFilename
    cloudinaryPublicId := jsOrNull p.cloudinaryPublicId }

/-- Re-injection of a concrete program as a payload whose every field is
present, as happens when a stored program object is fed back through the
normalizer. -/
def Program.toInput (p : Program) : ProgramInput :=
  { institution := some p.institution
    level := some p.level
    programName := some p.programName
    totalStudents := some p.totalStudents
    maleStudents := some p.maleStudents
    femaleStudents := some p.femaleStudents
    scholarshipStudents := some p.scholarshipStudents
    isScholarshipRuleApplied := some p.isScholarshipRuleApplied
    newAdmissions := some p.newAdmissions
    graduatedStudents := some p.graduatedStudents
    passPercentage := some p.passPercentage
    approvalLetterPath := p.approvalLetterPath
    approvalLetterFilename := p.approvalLetterFilename
    cloudinaryPublicId := p.cloudinaryPublicId }

/-- One financial category record, fully populated. -/
structure FinCategory where
  annualBudget : ℚ
  actualExpenditure : ℚ
  revenueGenerated : ℚ
  sources : List JsStr
deriving DecidableEq, Repr

/-- The zero-filled default category of processFinancialData (lines
174-177). -/
def FinCategory.zero : FinCategory :=
  { annualBudget := 0, actualExpenditure := 0, revenueGenerated := 0, sources := [] }

/-- A raw category payload: spread-merged over the default, so presence of
a key (even with value 0) wins. -/
structure FinCategoryInput where
  annualBudget : Option ℚ := none
  actualExpenditure : Option ℚ := none
  revenueGenerated : Option ℚ := none
  sources : Option (List JsStr) := none
deriving DecidableEq, Repr

/-- The attachments sub-object, fully populated (missing refs null). -/
structure Attachments where
  auditedFinancialStatements : Option String
  auditedFinancialStatementsFilename : Option String
  budgetCopy : Option String
  budgetCopyFilename : Option String
deriving DecidableEq, Repr

/-- The all-null default attachments object (lines 178-183). -/
def Attachments.empty : Attachments :=
  { auditedFinancialStatements := none, auditedFinancialStatementsFilename := none
    budgetCopy := none, budgetCopyFilename := none }

/-- A raw attachments payload: the outer Option is key presence, the inner
one the nullable value. -/
structure AttachmentsInput where
  auditedFinancialStatements : Option (Option String) := none
  auditedFinancialStatementsFilename : Option (Option String) := none
  budgetCopy : Option (Option String) := none
  budgetCopyFilename : Option (Option String) := none
deriving DecidableEq, Repr

/-- A fully populated FinancialStatus, as produced by
processFinancialData. -/
structure FinancialStatus where
  salaries : FinCategory
  capital : FinCategory
  operational : FinCategory
  research : FinCategory
  attachments : Attachments
  totalAnnualBudget : ℚ
  totalActualExpenditure : ℚ
  totalRevenueGenerated : ℚ
deriving DecidableEq, Repr

/-- A raw financial payload: any subset of the four categories and the
attachments may be present. Top-level grand-total keys of the payload are
never read by processFinancialData, so they do not appear here. -/
structure FinancialInput where
  salaries : Option FinCategoryInput := none
  capital : Option FinCategoryInput := none
  operational : Option FinCategoryInput := none
  research : Option FinCategoryInput := none
  attachments : Option AttachmentsInput := none
deriving DecidableEq, Repr

/-- Spread-merge of one raw category over the zero default:
defaultFinancial.x, ...financialData.x (lines 187-190). -/
def mergeCategory (o : Option FinCategoryInput) : FinCategory :=
  match o with
  | none => FinCategory.zero
  | some c =>
      { annualBudget := c.annualBudget.getD 0
        actualExpenditure := c.actualExpenditure.getD 0
        revenueGenerated := c.revenueGenerated.getD 0
        sources := c.sources.getD [] }

/-- Spread-merge of a raw attachments payload over the all-null default
(line 191). -/
def mergeAttachments (o : Option AttachmentsInput) : Attachments :=
  match o with
  | none => Attachments.empty
  | some a =>
      { auditedFinancialStatements := a.auditedFinancialStatements.getD none
        auditedFinancialStatementsFilename := a.auditedFinancialStatementsFilename.getD none
        budgetCopy := a.budgetCopy.getD none
        budgetCopyFilename := a.budgetCopyFilename.getD none }

/-- Financial Normalizer: processFinancialData (lines 172-214). Fills the
four categories and the attachments from the payload and recomputes the
three grand totals as sums over the four categories. -/
def processFinancialData (f : FinancialInput) : FinancialStatus :=
  let salaries := mergeCategory f.salaries
  let capital := mergeCategory f.capital
  let operational := mergeCategory f.operational
  let research := mergeCategory f.research
  { salaries := salaries
    capital := capital
    operational := operational
    research := research
    attachments := mergeAttachments f.attachments
    totalAnnualBudget :=
      salaries.annualBudget + capital.annualBudget +
      operational.annualBudget + research.annualBudget
    totalActualExpenditure :=
      salaries.actualExpenditure + capital.actualExpenditure +
      operational.actualExpenditure + research.actualExpenditure
    totalRevenueGenerated :=
      salaries.revenueGenerated + capital.revenueGenerated +
      operational.revenueGenerated + research.revenueGenerated }

/-- Re-injection of a concrete category as an all-present payload. -/
def FinCategory.toInput (c : FinCategory) : FinCategoryInput :=
  { annualBudget := some c.annualBudget
    actualExpenditure := some c.actualExpenditure
    revenueGenerated := some c.revenueGenerated
    sources := some c.sources }

/-- Re-injection of a concrete attachments object as an all-present
payload. -/
def Attachments.toInput (a : Attachments) : AttachmentsInput :=
  { auditedFinancialStatements := some a.auditedFinancialStatements
    auditedFinancialStatementsFilename := some a.auditedFinancialStatementsFilename
    budgetCopy := some a.budgetCopy
    budgetCopyFilename := some a.budgetCopyFilename }

/-- Re-injection of a stored FinancialStatus object as a payload whose
category and attachment keys are all present, as happens when a stored
financialStatus is passed back into processFinancialData by updateReport.
The stale grand-total keys of the object are dropped because
processFinancialData never reads them. -/
def FinancialStatus.toInput (fs : FinancialStatus) : FinancialInput :=
  { salaries := some fs.salaries.toInput
    capital := some fs.capital.toInput
    operational := some fs.operational.toInput
    research := some fs.research.toInput
    attachments := some fs.attachments.toInput }

/-- A stored report record. String-valued top-level fields that the caller
may omit are Options (a missing key stays missing in the stored JSON);
programs, totalStudents, financialStatus and the two timestamps are always
set by createReport. -/
structure Report where
  id : String
  collegeId : Option String
  collegeName : Option String
  academicYear : Option String
  programs : List Program
  totalStudents : ℚ
  financialStatus : FinancialStatus
  createdAt : Nat
  updatedAt : Nat
deriving DecidableEq, Repr

/-- A raw create payload. The spread ...reportData in createReport copies
every present key of the payload, including a caller-supplied id. -/
structure ReportInput where
  id : Option String := none
  collegeId : Option String := none
  collegeName : Option String := none
  academicYear : Option String := none
  programs : Option (List ProgramInput) := none
  totalStudents : Option ℚ := none
  financialStatus : Option FinancialInput := none
deriving Repr

/-- An update patch for updateReport: a present key overrides the stored
field by the top-level shallow merge; programs and financialStatus, when
present, replace the stored value wholesale. -/
structure ReportPatch where
  id : Option String := none
  collegeId : Option String := none
  collegeName : Option String := none
  academicYear : Option String := none
  programs : Option (List Program) := none
  totalStudents : Option ℚ := none
  financialStatus : Option FinancialInput := none
  createdAt : Option Nat := none
deriving Repr

/-- The empty patch. -/
def ReportPatch.empty : ReportPatch := {}

/-- The reduce over programs computing sum + (program.totalStudents || 0)
(lines 146-147 and 232-233). -/
def sumTotalStudents (ps : List Program) : ℚ :=
  ps.foldl (fun acc p => acc + (if p.totalStudents = 0 then 0 else p.totalStudents)) 0

/-- Outcome of a store operation: the result or the thrown error message,
together with the contents of the backing file after the operation. -/
abbrev StoreResult (α : Type) := Except String α × List Report

/-- createReport (lines 124-165): normalizes the programs, derives
totalStudents, normalizes the financial payload, builds the new record and
appends it to the collection. In the object literal the store-assigned id
is written before the payload spread, so a caller-supplied id key
overrides it; programs, totalStudents, financialStatus and the timestamps
are written after the spread and always win. -/
def createReport (input : ReportInput) (now : Nat) (s : List Report) :
    StoreResult Report :=
  let processedPrograms := (input.programs.getD []).map normalizeProgram
  let totalStudents := sumTotalStudents processedPrograms
  let financialData := processFinancialData (input.financialStatus.getD {})
  let newReport : Report :=
    { id := input.id.getD (toString now)
      collegeId := input.collegeId
      collegeName := input.collegeName
      academicYear := input.academicYear
      programs := processedPrograms
      totalStudents := totalStudents
      financialStatus := financialData
      createdAt := now
      updatedAt := now }
  (.ok newReport, s ++ [newReport])

/-- The top-level shallow merge of updateReport (lines 241-247):
reports[index] spread first, then the patch, then id and createdAt
restored from the original and updatedAt refreshed. -/
def mergeReport (old : Report) (patch : ReportPatch) (patchTotal : Option ℚ)
    (newFS : FinancialStatus) (now : Nat) : Report :=
  { id := old.id
    collegeId := match patch.collegeId with | some v => some v | none => old.collegeId
    collegeName := match patch.collegeName with | some v => some v | none => old.collegeName
    academicYear := match patch.academicYear with | some v => some v | none => old.academicYear
    programs := patch.programs.getD old.programs
    totalStudents := patchTotal.getD old.totalStudents
    financialStatus := newFS
    createdAt := old.createdAt
    updatedAt := now }

/-- updateReport (lines 222-251): findIndex by id, throw when absent;
when the patch touches programs overwrite its totalStudents with the
derived sum; when it touches financialStatus re-run the Financial
Normalizer; then shallow-merge, write the collection back and return the
merged record. -/
def updateReport (id : String) (patch : ReportPatch) (now : Nat)
    (s : List Report) : StoreResult Report :=
  match s.findIdx? (fun r => r.id == id) with
  | none => (.error "Report not found", s)
  | some index =>
    match s[index]? with
    | none => (.error "Report not found", s)
    | some old =>
      let patchTotal : Option ℚ :=
        match patch.programs with
        | some ps => some (sumTotalStudents ps)
        | none => patch.totalStudents
      let newFS : FinancialStatus :=
        match patch.financialStatus with
        | some f => processFinancialData f
        | none => old.financialStatus
      let updated := mergeReport old patch patchTotal newFS now
      (.ok updated, s.set index updated)

/-- getReportById (lines 52-55): linear scan by id over the collection. -/
def getReportById (s : List Report) (id : String) : Option Report :=
  s.find? (fun r => r.id == id)

/-- A patch for one program used by updateProgram: present keys override
the stored program record by shallow merge. -/
structure ProgramPatch where
  institution : Option String := none
  level : Option String := none
  programName : Option String := none
  totalStudents : Option ℚ := none
  maleStudents : Option ℚ := none
  femaleStudents : Option ℚ := none
  scholarshipStudents : Option ℚ := none
  isScholarshipRuleApplied : Option Bool := none
  newAdmissions : Option ℚ := none
  graduatedStudents : Option ℚ := none
  passPercentage : Option ℚ := none
  approvalLetterPath : Option (Option String) := none
  approvalLetterFilename : Option (Option String) := none
  cloudinaryPublicId : Option (Option String) := none
deriving Repr

/-- Spread-merge of a program patch over a stored program (lines
279-282). -/
def mergeProgram (p : Program) (d : ProgramPatch) : Program :=
  { institution := d.institution.getD p.institution
    level := d.level.getD p.level
    programName := d.programName.getD p.programName
    totalStudents := d.totalStudents.getD p.totalStudents
    maleStudents := d.maleStudents.getD p.maleStudents
    femaleStudents := d.femaleStudents.getD p.femaleStudents
    scholarshipStudents := d.scholarshipStudents.getD p.scholarshipStudents
    isScholarshipRuleApplied := d.isScholarshipRuleApplied.getD p.isScholarshipRuleApplied
    newAdmissions := d.newAdmissions.getD p.newAdmissions
    graduatedStudents := d.graduatedStudents.getD p.graduatedStudents
    passPercentage := d.passPercentage.getD p.passPercentage
    approvalLetterPath := d.approvalLetterPath.getD p.approvalLetterPath
    approvalLetterFilename := d.approvalLetterFilename.getD p.approvalLetterFilename
    cloudinaryPublicId := d.cloudinaryPublicId.getD p.cloudinaryPublicId }

/-- updateProgram (lines 262-285): locate the report, locate the program
by the composite key, shallow-merge the patch onto it and delegate to
updateReport with the modified programs list. -/
def updateProgram (reportId institution level programName : String)
    (programData : ProgramPatch) (now : Nat) (s : List Report) :
    StoreResult Report :=
  match getReportById s reportId with
  | none => (.error "Report not found", s)
  | some report =>
    match report.programs.findIdx? (fun p =>
        p.institution == institution && p.level == level &&
        p.programName == programName) with
    | none => (.error "Program not found in report", s)
    | some programIndex =>
      match report.programs[programIndex]? with
      | none => (.error "Program not found in report", s)
      | some prog =>
        let newPrograms := report.programs.set programIndex (mergeProgram prog programData)
        updateReport reportId { programs := some newPrograms } now s

/-- addProgram (lines 293-330): locate the report, reject when a program
with the same composite key is already present (the raw payload fields are
compared with strict equality against the stored strings, so an absent
payload field never matches), otherwise append the defaulted new program
and delegate to updateReport. -/
def addProgram (reportId : String) (programData : ProgramInput) (now : Nat)
    (s : List Report) : StoreResult Report :=
  match getReportById s reportId with
  | none => (.error "Report not found", s)
  | some report =>
    if report.programs.any (fun p =>
        programData.institution == some p.institution &&
        programData.level == some p.level &&
        programData.programName == some p.programName) then
      (.error "Program already exists in this report", s)
    else
      let newProgram := normalizeProgram programData
      updateReport reportId { programs := some (report.programs ++ [newProgram]) } now s

/-- removeProgram (lines 340-358): locate the report, filter out the
composite key, reject when nothing was removed, otherwise delegate to
updateReport with the filtered list. -/
def removeProgram (reportId institution level programName : String)
    (now : Nat) (s : List Report) : StoreResult Report :=
  match getReportById s reportId with
  | none => (.error "Report not found", s)
  | some report =>
    let filteredPrograms := report.programs.filter (fun p =>
      !(p.institution == institution && p.level == level &&
        p.programName == programName))
    if filteredPrograms.length = report.programs.length then
      (.error "Program not found in report", s)
    else
      updateReport reportId { programs := some filteredPrograms } now s

/-- The fixed list of valid financial category names (line 374). -/
def validCategories : List String := ["salaries", "capital", "operational", "research"]

/-- Read of the category sub-object selected by a computed key; only
reached after the name passed the validCategories check. -/
def getCategory (fs : FinancialStatus) (category : String) : FinCategory :=
  if category = "salaries" then fs.salaries
  else if category = "capital" then fs.capital
  else if category = "operational" then fs.operational
  else fs.research

/-- Write of the category sub-object selected by a computed key. -/
def setCategory (fs : FinancialStatus) (category : String) (c : FinCategory) :
    FinancialStatus :=
  if category = "salaries" then { fs with salaries := c }
  else if category = "capital" then { fs with capital := c }
  else if category = "operational" then { fs with operational := c }
  else { fs with research := c }

/-- Spread-merge of a category patch over the stored category sub-object
(lines 381-384). -/
def mergeCategoryPatch (c : FinCategory) (d : FinCategoryInput) : FinCategory :=
  { annualBudget := d.annualBudget.getD c.annualBudget
    actualExpenditure := d.actualExpenditure.getD c.actualExpenditure
    revenueGenerated := d.revenueGenerated.getD c.revenueGenerated
    sources := d.sources.getD c.sources }

/-- updateFinancialStatus (lines 367-388): locate the report, reject a
category name outside the fixed four, merge the patch onto that category
sub-object and delegate to updateReport, which re-runs the Financial
Normalizer over the rebuilt object (whose category and attachment keys are
all present, hence the toInput re-injection). -/
def updateFinancialStatus (reportId category : String)
    (financialData : FinCategoryInput) (now : Nat) (s : List Report) :
    StoreResult Report :=
  match getReportById s reportId with
  | none => (.error "Report not found", s)
  | some report =>
    if category ∉ validCategories then
      (.error "Invalid financial category", s)
    else
      let updatedFinancialStatus :=
        setCategory report.financialStatus category
          (mergeCategoryPatch (getCategory report.financialStatus category) financialData)
      updateReport reportId
        { financialStatus := some updatedFinancialStatus.toInput } now s

/-- Spread-merge of an attachments patch over the stored attachments
(lines 403-409). -/
def mergeAttachmentsPatch (a : Attachments) (d : AttachmentsInput) : Attachments :=
  { auditedFinancialStatements := d.auditedFinancialStatements.getD a.auditedFinancialStatements
    auditedFinancialStatementsFilename :=
      d.auditedFinancialStatementsFilename.getD a.auditedFinancialStatementsFilename
    budgetCopy := d.budgetCopy.getD a.budgetCopy
    budgetCopyFilename := d.budgetCopyFilename.getD a.budgetCopyFilename }

/-- updateFinancialAttachments (lines 396-412): locate the report, merge
the attachment references onto financialStatus.attachments and delegate to
updateReport. -/
def updateFinancialAttachments (reportId : String) (attachments : AttachmentsInput)
    (now : Nat) (s : List Report) : StoreResult Report :=
  match getReportById s reportId with
  | none => (.error "Report not found", s)
  | some report =>
    let updatedFinancialStatus :=
      { report.financialStatus with
          attachments := mergeAttachmentsPatch report.financialStatus.attachments attachments }
    updateReport reportId
      { financialStatus := some updatedFinancialStatus.toInput } now s

/-- deleteReport (lines 419-429): filter the collection by id, throw when
nothing matched, otherwise persist the filtered collection. -/
def deleteReport (id : String) (s : List Report) : StoreResult Bool :=
  let filteredReports := s.filter (fun r => !(r.id == id))
  if s.length = filteredReports.length then
    (.error "Report not found", s)
  else
    (.ok true, filteredReports)

/-- getAllReports (lines 37-45) at the raw-file level: the read of the
backing file may fail, and the parse of its text may fail; the surrounding
try/catch turns either failure into an empty array. The parse function is
abstract because the claims only concern the failure behaviour. -/
def getAllReports (readResult : Except String String)
    (parse : String → Except String (List Report)) : List Report :=
  match readResult with
  | .error _ => []
  | .ok data =>
    match parse data with
    | .error _ => []
    | .ok reports => reports

/-- JS Math.round to two decimals: Math.round(q * 100) / 100, with
Math.round as floor(x + 1/2) (round half toward positive infinity). -/
def round2 (q : ℚ) : ℚ := (⌊q * 100 + 1 / 2⌋ : ℚ) / 100

/-- The comparator (a, b) => new Date(b.createdAt) - new Date(a.createdAt)
sorts descending by creation time (line 682). -/
def byCreatedDesc (a b : Report) : Prop := b.createdAt ≤ a.createdAt

/-- The comparator (a, b) => new Date(a.createdAt) - new Date(b.createdAt)
sorts ascending by creation time (line 692). -/
def byCreatedAsc (a b : Report) : Prop := a.createdAt ≤ b.createdAt

instance : DecidableRel byCreatedDesc := fun _ _ => inferInstanceAs (Decidable (_ ≤ _))
instance : DecidableRel byCreatedAsc := fun _ _ => inferInstanceAs (Decidable (_ ≤ _))

instance : IsTotal Report byCreatedDesc := ⟨fun a b => le_total b.createdAt a.createdAt⟩
instance : IsTrans Report byCreatedDesc := ⟨fun _ _ _ hab hbc => le_trans hbc hab⟩
instance : IsTotal Report byCreatedAsc := ⟨fun a b => le_total a.createdAt b.createdAt⟩
instance : IsTrans Report byCreatedAsc := ⟨fun _ _ _ hab hbc => le_trans hab hbc⟩

/-- The latest report of a college: sort descending by createdAt and take
element 0 (lines 682-684). -/
def latestReportOf (rs : List Report) : Option Report :=
  (rs.insertionSort byCreatedDesc).head?

/-- The oldest report of a college: sort ascending by createdAt and take
element 0 (lines 692-695). -/
def oldestReportOf (rs : List Report) : Option Report :=
  (rs.insertionSort byCreatedAsc).head?

/-- The avgStudentGrowth computation of getAnalytics (lines 690-700):
zero unless the college has more than one report; otherwise, when the
oldest total is positive, the relative growth of totalStudents from the
oldest to the latest report, times 100. -/
def avgStudentGrowth (rs : List Report) : ℚ :=
  if 1 < rs.length then
    match oldestReportOf rs, latestReportOf rs with
    | some oldest, some latest =>
      if 0 < oldest.totalStudents then
        ((latest.totalStudents - oldest.totalStudents) / oldest.totalStudents) * 100
      else 0
    | _, _ => 0
  else 0

/-- One entry of the collegePerformance list (lines 723-733), restricted
to the fields the verified properties mention. The studentGrowth field is
the rounded avgStudentGrowth; utilizationRate is the rounded per-college
budgetUtilization of lines 686-688 and 720. -/
structure CollegePerf where
  collegeId : Option String
  collegeName : Option String
  totalReports : Nat
  totalStudents : ℚ
  totalPrograms : Nat
  studentGrowth : ℚ
  utilizationRate : ℚ
deriving DecidableEq, Repr

/-- The per-college unrounded budgetUtilization of lines 686-688, computed
from the latest report of the college. -/
def collegeBudgetUtilization (latest : Report) : ℚ :=
  if 0 < latest.financialStatus.totalAnnualBudget then
    (latest.financialStatus.totalActualExpenditure /
      latest.financialStatus.totalAnnualBudget) * 100
  else 0

/-- The collegeMap grouping of lines 493-504: reports are grouped by
collegeId in first-encounter order, each group keeping its reports in
storage order. -/
def groupByCollege (rs : List Report) : List (Option String × List Report) :=
  rs.foldl (fun acc r =>
    if acc.any (fun g => g.1 == r.collegeId) then
      acc.map (fun g => if g.1 == r.collegeId then (g.1, g.2 ++ [r]) else g)
    else acc ++ [(r.collegeId, [r])]) []

/-- The collegePerformance fold of getAnalytics (lines 681-734), before
the final sort: one entry per college, built from the latest report of the
college. The group list is never empty, so the none branch of the
filterMap is unreachable. -/
def collegePerformanceUnsorted (rs : List Report) : List CollegePerf :=
  (groupByCollege rs).filterMap (fun g =>
    match latestReportOf g.2 with
    | none => none
    | some latest => some
      { collegeId := g.1
        collegeName := (g.2.head?.map (fun r => r.collegeName)).getD none
        totalReports := g.2.length
        totalStudents := latest.totalStudents
        totalPrograms := latest.programs.length
        studentGrowth := round2 (avgStudentGrowth g.2)
        utilizationRate := round2 (collegeBudgetUtilization latest) })

/-- Descending order by totalStudents used for the collegePerformance
output (line 761). -/
def byStudentsDesc (a b : CollegePerf) : Prop := b.totalStudents ≤ a.totalStudents

instance : DecidableRel byStudentsDesc := fun _ _ => inferInstanceAs (Decidable (_ ≤ _))

/-- The collegePerformance list as returned by getAnalytics: the fold
above, sorted descending by totalStudents. -/
def collegePerformance (rs : List Report) : List CollegePerf :=
  (collegePerformanceUnsorted rs).insertionSort byStudentsDesc

/-- The aggregated financialSummary slice of getAnalytics (lines 481-491,
526-530 and 631-634): grand totals summed over every report that has a
financialStatus (always present in this model), and budgetUtilization
derived from them with the zero-budget guard and two-decimal rounding. -/
structure FinSummary where
  totalAnnualBudget : ℚ
  totalActualExpenditure : ℚ
  totalRevenueGenerated : ℚ
  budgetUtilization : ℚ
deriving DecidableEq, Repr

/-- The financial aggregation fold plus the budgetUtilization derivation
of getAnalytics. On the empty record set the early return of lines 438-466
also yields all-zero totals and zero utilization, which coincides with
this fold on the empty list. -/
def financialSummaryOf (rs : List Report) : FinSummary :=
  let b := rs.foldl (fun acc r => acc + r.financialStatus.totalAnnualBudget) 0
  let e := rs.foldl (fun acc r => acc + r.financialStatus.totalActualExpenditure) 0
  let g := rs.foldl (fun acc r => acc + r.financialStatus.totalRevenueGenerated) 0
  { totalAnnualBudget := b
    totalActualExpenditure := e
    totalRevenueGenerated := g
    budgetUtilization := if 0 < b then round2 ((e / b) * 100) else 0 }

/-! Concrete fixtures used by counterexamples and witnesses. -/

/-- A program payload with five students. -/
def progInput5 : ProgramInput := { programName := some "P", totalStudents := some 5 }

/-- The normalized five-student program. -/
def progP : Program := normalizeProgram progInput5

/-- A stored report with one five-student program. -/
def repA : Report :=
  { id := "1000", collegeId := some "C1", collegeName := some "College One",
    academicYear := some "2023", programs := [progP], totalStudents := 5,
    financialStatus := processFinancialData {}, createdAt := 1000, updatedAt := 1000 }

/-- A one-report store. -/
def storeA : List Report := [repA]

/-- A report whose financial status has budget 3 and expenditure 1. -/
def repB : Report :=
  { id := "2000", collegeId := some "C2", collegeName := none,
    academicYear := some "2024", programs := [], totalStudents := 0,
    financialStatus := processFinancialData
      { salaries := some { annualBudget := some 3, actualExpenditure := some 1 } },
    createdAt := 2000, updatedAt := 2000 }

/-- First scenario payload for the growth analytics: college C1, year
2023, one program with 100 students. -/
def c8Input1 : ReportInput :=
  { collegeId := some "C1", academicYear := some "2023",
    programs := some [{ programName := some "P", totalStudents := some 100 }] }

/-- Second scenario payload: college C1, year 2024, one program with 150
students. -/
def c8Input2 : ReportInput :=
  { collegeId := some "C1", academicYear := some "2024",
    programs := some [{ programName := some "P", totalStudents := some 150 }] }

/-- The store after creating the two scenario reports, the second at a
strictly later clock. -/
def c8Store : List Report :=
  (createReport c8Input2 2000 ((createReport c8Input1 1000 []).2)).2

/-- A stored report with 100 students created at clock 1000. -/
def c8Rep1 : Report :=
  { id := "1000", collegeId := some "C1", collegeName := none,
    academicYear := some "2023",
    programs := [normalizeProgram { programName := some "P", totalStudents := some 100 }],
    totalStudents := 100, financialStatus := processFinancialData {},
    createdAt := 1000, updatedAt := 1000 }

/-- A stored report with 150 students created at clock 2000. -/
def c8Rep2 : Report :=
  { id := "2000", collegeId := some "C1", collegeName := none,
    academicYear := some "2024",
    programs := [normalizeProgram { programName := some "P", totalStudents := some 150 }],
    totalStudents := 150, financialStatus := processFinancialData {},
    createdAt := 2000, updatedAt := 2000 }

/-! Helper lemmas shared by the claim theorems. -/

/-- Feeding a concrete string back through the string defaulting with the
empty default returns it unchanged. -/
lemma jsOrStr_some_empty (v : String) : jsOrStr (some v) "" = v := by
  unfold jsOrStr
  by_cases h : v = "" <;> simp [h]

/-- Feeding a concrete rational back through the numeric defaulting with
default zero returns it unchanged. -/
lemma jsOrQ_some_zero (v : ℚ) : jsOrQ (some v) 0 = v := by
  unfold jsOrQ
  by_cases h : v = 0 <;> simp [h]

/-- Feeding a concrete boolean back through the boolean defaulting with
default false returns it unchanged. -/
lemma jsOrBool_some_false (v : Bool) : jsOrBool (some v) false = v := by
  cases v <;> rfl

/-- The nullable-string defaulting is idempotent. -/
lemma jsOrNull_idem (o : Option String) : jsOrNull (jsOrNull o) = jsOrNull o := by
  cases o with
  | none => rfl
  | some v =>
    unfold jsOrNull
    by_cases h : v = "" <;> simp [h]

/-- Running the Financial Normalizer over a re-injected concrete
FinancialStatus keeps the categories and attachments and recomputes the
grand totals from the categories. -/
lemma processFinancialData_toInput (fs : FinancialStatus) :
    processFinancialData fs.toInput =
      { salaries := fs.salaries, capital := fs.capital,
        operational := fs.operational, research := fs.research,
        attachments := fs.attachments
        totalAnnualBudget :=
          fs.salaries.annualBudget + fs.capital.annualBudget +
          fs.operational.annualBudget + fs.research.annualBudget
        totalActualExpenditure :=
          fs.salaries.actualExpenditure + fs.capital.actualExpenditure +
          fs.operational.actualExpenditure + fs.research.actualExpenditure
        totalRevenueGenerated :=
          fs.salaries.revenueGenerated + fs.capital.revenueGenerated +
          fs.operational.revenueGenerated + fs.research.revenueGenerated } := rfl

/-! Claim theorems. -/

/-- C3: the Financial Normalizer and the Program Normalizer are
idempotent, and the grand totals of a normalized FinancialStatus are
always the sums of the four categories respective fields. -/
theorem normalizers_idempotent_and_totals_derived :
    (∀ f : FinancialInput,
      processFinancialData (processFinancialData f).toInput = processFinancialData f) ∧
    (∀ p : ProgramInput,
      normalizeProgram (normalizeProgram p).toInput = normalizeProgram p) ∧
    (∀ f : FinancialInput,
      (processFinancialData f).totalAnnualBudget =
        (processFinancialData f).salaries.annualBudget +
        (processFinancialData f).capital.annualBudget +
        (processFinancialData f).operational.annualBudget +
        (processFinancialData f).research.annualBudget ∧
      (processFinancialData f).totalActualExpenditure =
        (processFinancialData f).salaries.actualExpenditure +
        (processFinancialData f).capital.actualExpenditure +
        (processFinancialData f).operational.actualExpenditure +
        (processFinancialData f).research.actualExpenditure ∧
      (processFinancialData f).totalRevenueGenerated =
        (processFinancialData f).salaries.revenueGenerated +
        (processFinancialData f).capital.revenueGenerated +
        (processFinancialData f).operational.revenueGenerated +
        (processFinancialData f).research.revenueGenerated) := by
  refine ⟨fun f => ?_, fun p => ?_, fun f => ⟨rfl, rfl, rfl⟩⟩
  · rw [processFinancialData_toInput]; rfl
  · simp [normalizeProgram, Program.toInput, jsOrStr_some_empty, jsOrQ_some_zero,
      jsOrBool_some_false, jsOrNull_idem]

/-- C1: refuted on the code. In the createReport object literal the
store-assigned id is written before the payload spread, so a payload
carrying an id key persists and returns that caller-supplied id instead of
the store-assigned one; and two creates at the same clock tick (or two
payloads carrying the same id) persist duplicate ids. -/
theorem createReport_id_taken_from_caller :
    ((createReport { id := some "42" } 1000 []).1.toOption.map Report.id = some "42") ∧
    ((createReport { id := some "42" } 1000 []).2.map Report.id = ["42"]) ∧
    ("42" ≠ "1000") ∧
    ((createReport {} 1000 ((createReport {} 1000 []).2)).2.map Report.id = ["1000", "1000"]) := by
  exact ⟨by decide, by decide, by decide, by decide⟩

/-- C2: refuted on the code as stated. An update whose patch contains
totalStudents but no programs persists the caller-supplied value: on a
store whose only report has one five-student program, patching
totalStudents to 999 stores 999 even though the programs of the stored
report still sum to 5. -/
theorem updateReport_persists_caller_totalStudents :
    ((updateReport "1000" { totalStudents := some 999 } 2000 storeA).2.map
        Report.totalStudents = [999]) ∧
    ((updateReport "1000" { totalStudents := some 999 } 2000 storeA).2.map
        (fun r => sumTotalStudents r.programs) = [5]) ∧
    ((999 : ℚ) ≠ 5) := by
  refine ⟨?_, ?_, by norm_num⟩
  · norm_num [updateReport, storeA, repA, mergeReport, List.findIdx?]
  · norm_num [updateReport, storeA, repA, mergeReport, List.findIdx?, sumTotalStudents,
      progP, normalizeProgram, progInput5, jsOrQ, jsOrStr, jsOrBool, jsOrNull]

/-- C2 amended: totalStudents is recomputed as the sum over the programs
list on every create and on every update whose patch contains programs,
overriding any caller-supplied value there; but an update whose patch
contains totalStudents without programs persists the caller-supplied
value. -/
theorem totalStudents_derived_on_create_and_program_updates :
    (∀ input now s,
      (createReport input now s).1.map (fun rep => rep.totalStudents) =
      (createReport input now s).1.map (fun rep => sumTotalStudents rep.programs)) ∧
    (∀ id patch now s ps, patch.programs = some ps →
      (updateReport id patch now s).1.map (fun rep => rep.totalStudents) =
      (updateReport id patch now s).1.map (fun rep => sumTotalStudents rep.programs)) ∧
    (∀ id v now s,
      (updateReport id { totalStudents := some v } now s).1.map (fun rep => rep.totalStudents) =
      (updateReport id { totalStudents := some v } now s).1.map (fun _ => v)) := by
  refine ⟨fun input now s => rfl, fun id patch now s ps hps => ?_, fun id v now s => ?_⟩
  · cases hidx : s.findIdx? (fun r => r.id == id) with
    | none => simp [updateReport, hidx, Except.map]
    | some index =>
      cases hget : s[index]? with
      | none => simp [updateReport, hidx, hget, Except.map]
      | some old => simp [updateReport, hidx, hget, mergeReport, hps, Except.map]
  · cases hidx : s.findIdx? (fun r => r.id == id) with
    | none => simp [updateReport, hidx, Except.map]
    | some index =>
      cases hget : s[index]? with
      | none => simp [updateReport, hidx, hget, Except.map]
      | some old => simp [updateReport, hidx, hget, mergeReport, Except.map]

/-- C2 witness: the amended recomputation applied to a concrete update
that touches programs. -/
theorem totalStudents_derived_on_create_and_program_updates_witness :
    (updateReport "1000" { programs := some [progP] } 2000 storeA).1.map
        (fun rep => rep.totalStudents) =
      (updateReport "1000" { programs := some [progP] } 2000 storeA).1.map
        (fun rep => sumTotalStudents rep.programs) :=
  totalStudents_derived_on_create_and_program_updates.2.1 "1000"
    { programs := some [progP] } 2000 storeA [progP] rfl

/-- Auxiliary: a successful find? determines a findIdx? index holding the
found element. -/
lemma findIdx?_of_find? {α : Type} {p : α → Bool} :
    ∀ {s : List α} {r : α}, s.find? p = some r →
      ∃ i, s.findIdx? p = some i ∧ s[i]? = some r := by
  intro s
  induction s with
  | nil => intro r h; simp at h
  | cons a t ih =>
    intro r h
    by_cases hp : p a
    · rw [List.find?_cons_of_pos _ hp] at h
      refine ⟨0, ?_, ?_⟩
      · simp [List.findIdx?_cons, hp]
      · simpa using h
    · rw [List.find?_cons_of_neg _ hp] at h
      obtain ⟨i, h1, h2⟩ := ih h
      refine ⟨i + 1, ?_, ?_⟩
      · simp [List.findIdx?_cons, hp, List.findIdx?_succ, h1]
      · simpa using h2

/-- C4: an update with the empty patch on a stored report changes only its
updatedAt field; the result and the stored entry are the pre-update record
with updatedAt refreshed, and every other entry of the collection is
untouched. -/
theorem updateReport_empty_patch_frame (s : List Report) (id : String) (now : Nat)
    (index : Nat) (r : Report)
    (hidx : s.findIdx? (fun x => x.id == id) = some index)
    (hget : s[index]? = some r) :
    updateReport id ReportPatch.empty now s =
      (Except.ok { r with updatedAt := now }, s.set index { r with updatedAt := now }) := by
  simp [updateReport, hidx, hget, mergeReport, ReportPatch.empty]

/-- C4 witness: the empty-patch frame property applied to a concrete
one-report store. -/
theorem updateReport_empty_patch_frame_witness :
    updateReport "1000" ReportPatch.empty 2000 storeA =
      (Except.ok { repA with updatedAt := 2000 }, storeA.set 0 { repA with updatedAt := 2000 }) :=
  updateReport_empty_patch_frame storeA "1000" 2000 0 repA rfl rfl

/-- C6: when the backing file is unreadable, or its contents fail to
parse, getAllReports returns the empty array instead of propagating the
failure. -/
theorem getAllReports_degrades_to_empty :
    (∀ e parse, getAllReports (Except.error e) parse = []) ∧
    (∀ data parse e, parse data = Except.error e →
      getAllReports (Except.ok data) parse = []) := by
  refine ⟨fun e parse => rfl, fun data parse e h => ?_⟩
  simp [getAllReports, h]

/-- C6 witness: a concrete malformed file content yields the empty
array. -/
theorem getAllReports_degrades_to_empty_witness :
    getAllReports (Except.ok "not json") (fun _ => Except.error "malformed") = [] :=
  getAllReports_degrades_to_empty.2 "not json" (fun _ => Except.error "malformed") "malformed" rfl

/-- C7: adding a program whose composite key (institution, level,
programName) already occurs in the report fails with the AlreadyExists
error and leaves the persisted collection, hence the programs list of the
report, exactly as before. -/
theorem addProgram_duplicate_composite_key_rejected :
    ∀ s rid pd now report p,
      getReportById s rid = some report →
      p ∈ report.programs →
      pd.institution = some p.institution →
      pd.level = some p.level →
      pd.programName = some p.programName →
      addProgram rid pd now s = (.error "Program already exists in this report", s) ∧
      getReportById (addProgram rid pd now s).2 rid = some report := by
  intro s rid pd now report p hfind hmem hi hl hn
  have hany : report.programs.any (fun q =>
      pd.institution == some q.institution &&
      pd.level == some q.level &&
      pd.programName == some q.programName) = true := by
    rw [List.any_eq_true]
    exact ⟨p, hmem, by simp [hi, hl, hn]⟩
  constructor
  · simp [addProgram, hfind, hany]
  · simp [addProgram, hfind, hany]

/-- C7 witness: re-adding the program of the concrete one-report store is
rejected and the report is unchanged. -/
theorem addProgram_duplicate_composite_key_rejected_witness :
    addProgram "1000" { institution := some "", level := some "", programName := some "P" }
        2000 storeA = (.error "Program already exists in this report", storeA) ∧
    getReportById (addProgram "1000"
        { institution := some "", level := some "", programName := some "P" } 2000 storeA).2
        "1000" = some repA :=
  addProgram_duplicate_composite_key_rejected storeA "1000"
    { institution := some "", level := some "", programName := some "P" } 2000 repA progP
    rfl (by simp [repA]) rfl rfl rfl

/-- C5: on an existing report, a category name outside the four valid ones
is rejected with the InvalidArgument error and the collection is
unchanged; for the valid category salaries, patching annualBudget to 1000
stores a report whose financialStatus.salaries.annualBudget is 1000 and
whose totalAnnualBudget is 1000 plus the three other categories stored
budgets. -/
theorem updateFinancialStatus_contract :
    (∀ s rid category fd now r,
      getReportById s rid = some r →
      category ∉ validCategories →
      updateFinancialStatus rid category fd now s =
        (.error "Invalid financial category", s)) ∧
    (∀ s rid now r,
      getReportById s rid = some r →
      (updateFinancialStatus rid "salaries" { annualBudget := some 1000 } now s).1.map
          (fun rep => rep.financialStatus.salaries.annualBudget) = .ok 1000 ∧
      (updateFinancialStatus rid "salaries" { annualBudget := some 1000 } now s).1.map
          (fun rep => rep.financialStatus.totalAnnualBudget) =
        .ok (1000 + r.financialStatus.capital.annualBudget +
             r.financialStatus.operational.annualBudget +
             r.financialStatus.research.annualBudget)) := by
  constructor
  · intro s rid category fd now r hfind hc
    simp [updateFinancialStatus, hfind, hc]
  · intro s rid now r hfind
    obtain ⟨i, hidx, hget⟩ := findIdx?_of_find? hfind
    constructor <;>
      simp [updateFinancialStatus, hfind, validCategories, updateReport, hidx, hget,
        mergeReport, setCategory, getCategory, mergeCategoryPatch,
        processFinancialData_toInput, Except.map, FinancialStatus.toInput,
        processFinancialData, mergeCategory, mergeAttachments, FinCategory.toInput,
        Attachments.toInput]

/-- C5 witness: the category contract applied to the concrete one-report
store, with the invalid name rent and the valid salaries patch. -/
theorem updateFinancialStatus_contract_witness :
    updateFinancialStatus "1000" "rent" {} 2000 storeA =
      (.error "Invalid financial category", storeA) ∧
    (updateFinancialStatus "1000" "salaries" { annualBudget := some 1000 } 2000 storeA).1.map
        (fun rep => rep.financialStatus.salaries.annualBudget) = .ok 1000 ∧
    (updateFinancialStatus "1000" "salaries" { annualBudget := some 1000 } 2000 storeA).1.map
        (fun rep => rep.financialStatus.totalAnnualBudget) =
      .ok (1000 + repA.financialStatus.capital.annualBudget +
           repA.financialStatus.operational.annualBudget +
           repA.financialStatus.research.annualBudget) :=
  ⟨updateFinancialStatus_contract.1 storeA "1000" "rent" {} 2000 repA rfl (by decide),
   (updateFinancialStatus_contract.2 storeA "1000" 2000 repA rfl).1,
   (updateFinancialStatus_contract.2 storeA "1000" 2000 repA rfl).2⟩

/-- Auxiliary: a failing updateReport leaves the collection unchanged. -/
lemma updateReport_error_frame (id : String) (patch : ReportPatch) (now : Nat)
    (s : List Report) (e : String)
    (h : (updateReport id patch now s).1 = .error e) :
    (updateReport id patch now s).2 = s := by
  cases hidx : s.findIdx? (fun r => r.id == id) with
  | none => simp [updateReport, hidx]
  | some index =>
    cases hget : s[index]? with
    | none => simp [updateReport, hidx, hget]
    | some old => simp [updateReport, hidx, hget] at h

/-- Auxiliary: a failing updateProgram leaves the collection unchanged. -/
lemma updateProgram_error_frame (rid inst lvl pn : String) (pd : ProgramPatch)
    (now : Nat) (s : List Report) (e : String)
    (h : (updateProgram rid inst lvl pn pd now s).1 = .error e) :
    (updateProgram rid inst lvl pn pd now s).2 = s := by
  cases hfind : getReportById s rid with
  | none => simp [updateProgram, hfind]
  | some report =>
    cases hpidx : report.programs.findIdx? (fun p =>
        p.institution == inst && p.level == lvl && p.programName == pn) with
    | none => simp [updateProgram, hfind, hpidx]
    | some programIndex =>
      cases hpget : report.programs[programIndex]? with
      | none => simp [updateProgram, hfind, hpidx, hpget]
      | some prog =>
        simp only [updateProgram, hfind, hpidx, hpget] at h ⊢
        exact updateReport_error_frame _ _ _ _ e h

/-- Auxiliary: a failing addProgram leaves the collection unchanged. -/
lemma addProgram_error_frame (rid : String) (pd : ProgramInput)
    (now : Nat) (s : List Report) (e : String)
    (h : (addProgram rid pd now s).1 = .error e) :
    (addProgram rid pd now s).2 = s := by
  cases hfind : getReportById s rid with
  | none => simp [addProgram, hfind]
  | some report =>
    cases hdup : report.programs.any (fun p =>
        pd.institution == some p.institution && pd.level == some p.level &&
        pd.programName == some p.programName) with
    | true => simp [addProgram, hfind, hdup]
    | false =>
      simp only [addProgram, hfind, hdup, Bool.false_eq_true, if_false] at h ⊢
      exact updateReport_error_frame _ _ _ _ e h

/-- Auxiliary: a failing removeProgram leaves the collection unchanged. -/
lemma removeProgram_error_frame (rid inst lvl pn : String)
    (now : Nat) (s : List Report) (e : String)
    (h : (removeProgram rid inst lvl pn now s).1 = .error e) :
    (removeProgram rid inst lvl pn now s).2 = s := by
  cases hfind : getReportById s rid with
  | none => simp [removeProgram, hfind]
  | some report =>
    by_cases hlen : (report.programs.filter (fun p =>
        !(p.institution == inst && p.level == lvl && p.programName == pn))).length =
          report.programs.length
    · simp only [removeProgram, hfind]
      rw [if_pos hlen]
    · simp only [removeProgram, hfind, if_neg hlen] at h ⊢
      exact updateReport_error_frame _ _ _ _ e h

/-- Auxiliary: a failing updateFinancialStatus leaves the collection
unchanged. -/
lemma updateFinancialStatus_error_frame (rid cat : String) (fd : FinCategoryInput)
    (now : Nat) (s : List Report) (e : String)
    (h : (updateFinancialStatus rid cat fd now s).1 = .error e) :
    (updateFinancialStatus rid cat fd now s).2 = s := by
  cases hfind : getReportById s rid with
  | none => simp [updateFinancialStatus, hfind]
  | some report =>
    by_cases hval : cat ∉ validCategories
    · simp [updateFinancialStatus, hfind, hval]
    · simp only [updateFinancialStatus, hfind, if_neg hval] at h ⊢
      exact updateReport_error_frame _ _ _ _ e h

/-- Auxiliary: a failing updateFinancialAttachments leaves the collection
unchanged. -/
lemma updateFinancialAttachments_error_frame (rid : String) (att : AttachmentsInput)
    (now : Nat) (s : List Report) (e : String)
    (h : (updateFinancialAttachments rid att now s).1 = .error e) :
    (updateFinancialAttachments rid att now s).2 = s := by
  cases hfind : getReportById s rid with
  | none => simp [updateFinancialAttachments, hfind]
  | some report =>
    simp only [updateFinancialAttachments, hfind] at h ⊢
    exact updateReport_error_frame _ _ _ _ e h

/-- Auxiliary: a failing deleteReport leaves the collection unchanged. -/
lemma deleteReport_error_frame (id : String) (s : List Report) (e : String)
    (h : (deleteReport id s).1 = .error e) : (deleteReport id s).2 = s := by
  by_cases hlen : s.length = (s.filter (fun r => !(r.id == id))).length
  · simp [deleteReport, hlen]
  · simp [deleteReport, hlen] at h

/-- C10: every mutating store operation that fails with its
NotFound/InvalidArgument/AlreadyExists error raises it before any write,
so the persisted collection after a failing call is exactly the collection
before it. -/
theorem mutating_ops_error_atomic :
    (∀ id patch now s e, (updateReport id patch now s).1 = .error e →
      (updateReport id patch now s).2 = s) ∧
    (∀ id s e, (deleteReport id s).1 = .error e → (deleteReport id s).2 = s) ∧
    (∀ rid inst lvl pn pd now s e, (updateProgram rid inst lvl pn pd now s).1 = .error e →
      (updateProgram rid inst lvl pn pd now s).2 = s) ∧
    (∀ rid pd now s e, (addProgram rid pd now s).1 = .error e →
      (addProgram rid pd now s).2 = s) ∧
    (∀ rid inst lvl pn now s e, (removeProgram rid inst lvl pn now s).1 = .error e →
      (removeProgram rid inst lvl pn now s).2 = s) ∧
    (∀ rid cat fd now s e, (updateFinancialStatus rid cat fd now s).1 = .error e →
      (updateFinancialStatus rid cat fd now s).2 = s) ∧
    (∀ rid att now s e, (updateFinancialAttachments rid att now s).1 = .error e →
      (updateFinancialAttachments rid att now s).2 = s) :=
  ⟨fun id patch now s e h => updateReport_error_frame id patch now s e h,
   fun id s e h => deleteReport_error_frame id s e h,
   fun rid inst lvl pn pd now s e h => updateProgram_error_frame rid inst lvl pn pd now s e h,
   fun rid pd now s e h => addProgram_error_frame rid pd now s e h,
   fun rid inst lvl pn now s e h => removeProgram_error_frame rid inst lvl pn now s e h,
   fun rid cat fd now s e h => updateFinancialStatus_error_frame rid cat fd now s e h,
   fun rid att now s e h => updateFinancialAttachments_error_frame rid att now s e h⟩

/-- C10 witness: a failing update on the empty store leaves the store
empty. -/
theorem mutating_ops_error_atomic_witness :
    (updateReport "zz" ReportPatch.empty 0 []).2 = ([] : List Report) :=
  mutating_ops_error_atomic.1 "zz" ReportPatch.empty 0 [] "Report not found" rfl

/-- Auxiliary: the head of the descending sort is the unique report with
maximal createdAt, when creation times are pairwise distinct. -/
lemma latestReportOf_eq_max (rs : List Report) (l : Report)
    (hmem : l ∈ rs)
    (hmax : ∀ r ∈ rs, r.createdAt ≤ l.createdAt)
    (hdist : rs.Pairwise (fun a b => a.createdAt ≠ b.createdAt)) :
    latestReportOf rs = some l := by
  unfold latestReportOf
  have hperm := List.perm_insertionSort byCreatedDesc rs
  have hsorted := List.sorted_insertionSort byCreatedDesc rs
  cases hcons : rs.insertionSort byCreatedDesc with
  | nil =>
    rw [hcons] at hperm
    rw [List.nil_perm] at hperm
    rw [hperm] at hmem
    cases hmem
  | cons h t =>
    rw [hcons] at hperm hsorted
    simp only [List.head?_cons, Option.some.injEq]
    have hmem2 : l ∈ h :: t := hperm.mem_iff.mpr hmem
    rcases List.mem_cons.mp hmem2 with rfl | hl
    · rfl
    · exfalso
      have h1 : l.createdAt ≤ h.createdAt :=
        List.rel_of_sorted_cons hsorted l hl
      have h2 : h.createdAt ≤ l.createdAt :=
        hmax h (hperm.mem_iff.mp (List.mem_cons_self h t))
      have hpair : (h :: t).Pairwise (fun a b => a.createdAt ≠ b.createdAt) :=
        (hperm.pairwise_iff (fun hne => hne.symm)).mpr hdist
      exact (List.pairwise_cons.mp hpair).1 l hl (le_antisymm h2 h1)

/-- Auxiliary: the head of the ascending sort is the unique report with
minimal createdAt, when creation times are pairwise distinct. -/
lemma oldestReportOf_eq_min (rs : List Report) (o : Report)
    (hmem : o ∈ rs)
    (hmin : ∀ r ∈ rs, o.createdAt ≤ r.createdAt)
    (hdist : rs.Pairwise (fun a b => a.createdAt ≠ b.createdAt)) :
    oldestReportOf rs = some o := by
  unfold oldestReportOf
  have hperm := List.perm_insertionSort byCreatedAsc rs
  have hsorted := List.sorted_insertionSort byCreatedAsc rs
  cases hcons : rs.insertionSort byCreatedAsc with
  | nil =>
    rw [hcons] at hperm
    rw [List.nil_perm] at hperm
    rw [hperm] at hmem
    cases hmem
  | cons h t =>
    rw [hcons] at hperm hsorted
    simp only [List.head?_cons, Option.some.injEq]
    have hmem2 : o ∈ h :: t := hperm.mem_iff.mpr hmem
    rcases List.mem_cons.mp hmem2 with rfl | hl
    · rfl
    · exfalso
      have h1 : h.createdAt ≤ o.createdAt :=
        List.rel_of_sorted_cons hsorted o hl
      have h2 : o.createdAt ≤ h.createdAt :=
        hmin h (hperm.mem_iff.mp (List.mem_cons_self h t))
      have hpair : (h :: t).Pairwise (fun a b => a.createdAt ≠ b.createdAt) :=
        (hperm.pairwise_iff (fun hne => hne.symm)).mpr hdist
      exact (List.pairwise_cons.mp hpair).1 o hl (le_antisymm h1 h2)

/-- Auxiliary: the growth computation in closed form. -/
lemma avgStudentGrowth_formula (rs : List Report) (l o : Report)
    (hlen : 1 < rs.length) (hl : l ∈ rs) (ho : o ∈ rs)
    (hmax : ∀ r ∈ rs, r.createdAt ≤ l.createdAt)
    (hmin : ∀ r ∈ rs, o.createdAt ≤ r.createdAt)
    (hdist : rs.Pairwise (fun a b => a.createdAt ≠ b.createdAt))
    (hnn : 0 ≤ o.totalStudents) :
    avgStudentGrowth rs =
      (l.totalStudents - o.totalStudents) / o.totalStudents * 100 := by
  simp only [avgStudentGrowth, if_pos hlen,
    latestReportOf_eq_max rs l hl hmax hdist,
    oldestReportOf_eq_min rs o ho hmin hdist]
  by_cases hz : 0 < o.totalStudents
  · rw [if_pos hz]
  · have h0 : o.totalStudents = 0 := le_antisymm (not_lt.mp hz) hnn
    rw [if_neg hz, h0, div_zero, zero_mul]

/-- C8: after creating exactly the two scenario reports for college C1
(years 2023 then 2024, with 100 then 150 students and the second strictly
later), the collegePerformance entry for C1 reports studentGrowth 50 and
totalReports 2; in general, for a college with at least two reports whose
creation times are pairwise distinct, the computed growth equals
(latest minus oldest totalStudents) / oldest times 100, where division by
a zero oldest count yields 0 exactly as the guard in the code does. -/
theorem analytics_college_student_growth :
    ((collegePerformance c8Store).map (fun c => (c.collegeId, c.totalReports, c.studentGrowth)) =
      [(some "C1", 2, 50)]) ∧
    (∀ rs l o, 1 < rs.length → l ∈ rs → o ∈ rs →
      (∀ r ∈ rs, r.createdAt ≤ l.createdAt) →
      (∀ r ∈ rs, o.createdAt ≤ r.createdAt) →
      rs.Pairwise (fun a b => a.createdAt ≠ b.createdAt) →
      0 ≤ o.totalStudents →
      avgStudentGrowth rs =
        (l.totalStudents - o.totalStudents) / o.totalStudents * 100) := by
  constructor
  · norm_num [collegePerformance, collegePerformanceUnsorted, groupByCollege, c8Store,
      createReport, c8Input1, c8Input2, sumTotalStudents, normalizeProgram, jsOrQ, jsOrStr,
      jsOrBool, jsOrNull, latestReportOf, avgStudentGrowth, oldestReportOf,
      List.insertionSort, List.orderedInsert, byCreatedDesc, byCreatedAsc, byStudentsDesc,
      round2, collegeBudgetUtilization, processFinancialData, mergeCategory,
      mergeAttachments, FinCategory.zero, Attachments.empty]
  · intro rs l o hlen hl ho hmax hmin hdist hnn
    exact avgStudentGrowth_formula rs l o hlen hl ho hmax hmin hdist hnn

/-- C8 witness: the growth formula applied to the concrete two-report
college history. -/
theorem analytics_college_student_growth_witness :
    avgStudentGrowth [c8Rep1, c8Rep2] =
      (c8Rep2.totalStudents - c8Rep1.totalStudents) / c8Rep1.totalStudents * 100 :=
  analytics_college_student_growth.2 [c8Rep1, c8Rep2] c8Rep2 c8Rep1
    (by decide) (by simp) (by simp)
    (by intro r hr; rcases List.mem_cons.mp hr with rfl | hr2 <;> simp_all [c8Rep1, c8Rep2])
    (by intro r hr; rcases List.mem_cons.mp hr with rfl | hr2 <;> simp_all [c8Rep1, c8Rep2])
    (by simp [c8Rep1, c8Rep2])
    (by norm_num [c8Rep1])

/-- C9: refuted as stated. The aggregated budgetUtilization is rounded to
two decimals, so with budget 3 and expenditure 1 it is 33.33 rather than
the exact 100/3 the claim asserts. -/
theorem analytics_budget_utilization_is_rounded :
    (financialSummaryOf [repB]).totalAnnualBudget = 3 ∧
    (financialSummaryOf [repB]).totalActualExpenditure = 1 ∧
    (financialSummaryOf [repB]).budgetUtilization = 3333 / 100 ∧
    (financialSummaryOf [repB]).budgetUtilization ≠ (1 / 3) * 100 := by
  refine ⟨?_, ?_, ?_, ?_⟩ <;>
    norm_num [financialSummaryOf, repB, processFinancialData, mergeCategory, round2,
      FinCategory.zero]

/-- C9 amended: the aggregated budgetUtilization is 0 whenever the
aggregated totalAnnualBudget is 0, and otherwise equals
expenditure/budget*100 rounded to two decimals; the per-college
budgetUtilization intermediate of the collegePerformance fold is 0 on a
zero budget and exactly expenditure/budget*100 on a positive one. -/
theorem analytics_budget_utilization_guarded :
    (∀ rs, (financialSummaryOf rs).totalAnnualBudget = 0 →
      (financialSummaryOf rs).budgetUtilization = 0) ∧
    (∀ rs, 0 < (financialSummaryOf rs).totalAnnualBudget →
      (financialSummaryOf rs).budgetUtilization =
        round2 ((financialSummaryOf rs).totalActualExpenditure /
          (financialSummaryOf rs).totalAnnualBudget * 100)) ∧
    (∀ latest, latest.financialStatus.totalAnnualBudget = 0 →
      collegeBudgetUtilization latest = 0) ∧
    (∀ latest, 0 < latest.financialStatus.totalAnnualBudget →
      collegeBudgetUtilization latest =
        latest.financialStatus.totalActualExpenditure /
          latest.financialStatus.totalAnnualBudget * 100) := by
  refine ⟨fun rs h => ?_, fun rs h => ?_, fun latest h => ?_, fun latest h => ?_⟩
  · simp only [financialSummaryOf] at h ⊢
    rw [h, if_neg (lt_irrefl 0)]
  · simp only [financialSummaryOf] at h ⊢
    rw [if_pos h]
  · simp only [collegeBudgetUtilization, h, if_neg (lt_irrefl (0 : ℚ))]
  · simp only [collegeBudgetUtilization, if_pos h]

/-- C9 witness: the amended utilization equation applied to the concrete
one-report store with budget 3 and expenditure 1. -/
theorem analytics_budget_utilization_guarded_witness :
    (financialSummaryOf [repB]).budgetUtilization =
      round2 ((financialSummaryOf [repB]).totalActualExpenditure /
        (financialSummaryOf [repB]).totalAnnualBudget * 100) :=
  analytics_budget_utilization_guarded.2.1 [repB]
    (by norm_num [financialSummaryOf, repB, processFinancialData, mergeCategory,
      FinCategory.zero])
